import Mathlib

/-!
Verification development for the rtmp-server stream-lifecycle and
recording-storage subsystem.  The definitions below are a shallow
embedding of the TypeScript/JavaScript source:

* `src/storage/base-storage.ts` — value types (`IStorageMetadata`,
  `IStorageResult`);
* `src/storage/local-storage.ts` (`LocalStorage`) and
  `src/storage/s3-storage.ts` (`S3Storage`) — the two storage backends,
  modelled over an explicit filesystem / object-store state;
* `src/index.ts` (`RTMPServer.setupEventHandlers`) — the stream-key
  session registry;
* `loadtest/viewer_real.js` (`app.post("/api/livekit/webhook")`) — the
  egress orchestrator reacting to `track_published` / `ingress_ended`
  webhook events over the `activeEgressMap`.

Asynchronous effects are modelled by explicit state passing; handler
bodies run sequentially (the process is single-threaded and handlers
only interleave at suspension points, which the claims below do not
exercise).  Timestamps are natural numbers (milliseconds since epoch);
the ISO-formatted timestamp string used in file names is passed in as
an opaque parameter.
-/

namespace RtmpVerify

/-! ### Association-list maps

JavaScript `Map` objects (`sessionMap`, `activeEgressMap`) are modelled
as association lists with unique keys; `aset` and `aerase` are
`Map.set` / `Map.delete`. -/

def alookup {α : Type} (k : String) : List (String × α) → Option α
  | [] => none
  | p :: rest => if p.1 = k then some p.2 else alookup k rest

def aerase {α : Type} (k : String) : List (String × α) → List (String × α)
  | [] => []
  | p :: rest => if p.1 = k then aerase k rest else p :: aerase k rest

def aset {α : Type} (k : String) (v : α) (l : List (String × α)) : List (String × α) :=
  (k, v) :: aerase k l

/-! ### Storage value types (base-storage.ts) -/

/-- `Partial<IStorageMetadata>` as passed by callers of `saveRecording`.
Only the optional fields a caller can meaningfully supply are modelled;
each `some` field overrides the computed one via the `...metadata`
spread in the result construction. -/
structure MetaPatch where
  fileSize : Option Nat := none
  duration : Option Nat := none
  quality : Option String := none
deriving DecidableEq, Repr

/-- `IStorageMetadata`. -/
structure StorageMetadata where
  streamKey : String
  fileName : String
  fileSize : Nat
  uploadTime : Nat
  duration : Option Nat := none
  quality : Option String := none
deriving DecidableEq, Repr

/-- `IStorageResult`. -/
structure StorageResult where
  success : Bool
  filePath : Option String := none
  url : Option String := none
  metadata : StorageMetadata
  error : Option String := none
deriving DecidableEq, Repr

/-! ### LocalStorage (local-storage.ts)

The filesystem visible to `LocalStorage` is (a) the temp area, a map
from temp file path to file size, and (b) the recordings directory, a
map from entry name to entry.  Directory entries carry a size, a
creation time (`stats.birthtime`) and whether they are directories
(the backend itself creates a `thumbnails` subdirectory inside the
recordings root). -/

structure LocalEntry where
  size : Nat
  birthtime : Nat
  isDir : Bool := false
deriving DecidableEq, Repr

structure LocalFS where
  temp : List (String × Nat)
  recordings : List (String × LocalEntry)
deriving DecidableEq, Repr

/-- `` `${streamKey}_${timestamp}.flv` `` where `timestamp` is
`new Date().toISOString().replace(/[:.]/g, "-")`, passed in as `tsStr`. -/
def recordingFileName (streamKey tsStr : String) : String :=
  streamKey ++ "_" ++ tsStr ++ ".flv"

/-- `LocalStorage.saveRecording(tempFilePath, streamKey, metadata)`.
`now` is the current time, `tsStr` its filesystem-safe ISO rendering,
`httpPort` the `HTTP_PORT` environment value.  Mirrors the source:
check `fs.pathExists(tempFilePath)` (throwing into the catch branch
when absent), `fs.move` to the recordings root, `fs.stat` the
destination, then build the result metadata as
`{streamKey, fileName, fileSize: stats.size, uploadTime, ...metadata}`
— so `some` fields of the caller's patch override the computed ones. -/
def localSaveRecording (fs : LocalFS) (tempFilePath streamKey : String)
    (metadata : MetaPatch) (tsStr : String) (now : Nat) (httpPort : String) :
    StorageResult × LocalFS :=
  let fileName := recordingFileName streamKey tsStr
  match alookup tempFilePath fs.temp with
  | none =>
    ({ success := false,
       metadata := { streamKey := streamKey, fileName := "", fileSize := 0,
                     uploadTime := now },
       error := some ("Temp file not found: " ++ tempFilePath) }, fs)
  | some size =>
    let fs1 : LocalFS :=
      { temp := aerase tempFilePath fs.temp,
        recordings := aset fileName { size := size, birthtime := now } fs.recordings }
    ({ success := true,
       filePath := some ("recordings/" ++ fileName),
       url := some ("http://localhost:" ++ httpPort ++ "/recordings/" ++ fileName),
       metadata := { streamKey := streamKey, fileName := fileName,
                     fileSize := metadata.fileSize.getD size,
                     uploadTime := now,
                     duration := metadata.duration,
                     quality := metadata.quality } }, fs1)

/-- `LocalStorage.deleteRecording(fileName)`: `pathExists` then
`fs.remove`; returns `false` when the file is already absent. -/
def localDeleteRecording (fs : LocalFS) (fileName : String) : Bool × LocalFS :=
  if (alookup fileName fs.recordings).isSome then
    (true, { fs with recordings := aerase fileName fs.recordings })
  else
    (false, fs)

/-- The sweep loop of `LocalStorage.cleanupOldRecordings`: iterate over
the `readdir` snapshot in order; for each entry older than the cutoff,
`fs.remove` it.  `removeFails name = true` means `fs.remove` rejects
for that entry; the rejection is caught only by the try/catch wrapping
the whole loop, which returns `0` — entries not yet visited stay on
disk, entries already removed stay removed.  Returns the value of the
call and the surviving directory entries. -/
def cleanupGo (removeFails : String → Bool) (cutoff : Nat) :
    List (String × LocalEntry) → Nat → Nat × List (String × LocalEntry)
  | [], acc => (acc, [])
  | (name, e) :: rest, acc =>
    if e.birthtime < cutoff then
      if removeFails name then
        (0, (name, e) :: rest)
      else
        cleanupGo removeFails cutoff rest (acc + 1)
    else
      let r := cleanupGo removeFails cutoff rest acc
      (r.1, (name, e) :: r.2)

/-- `LocalStorage.cleanupOldRecordings(maxAgeHours)` with
`cutoffTime = Date.now() - maxAgeHours * 60 * 60 * 1000`.  Every entry
of the recordings directory is examined (no extension filter). -/
def cleanupOldRecordings (removeFails : String → Bool) (now : Nat)
    (maxAgeHours : Nat) (fs : LocalFS) : Nat × LocalFS :=
  let cutoff := now - maxAgeHours * 60 * 60 * 1000
  let r := cleanupGo removeFails cutoff fs.recordings 0
  (r.1, { fs with recordings := r.2 })

/-! ### S3Storage (s3-storage.ts)

The object store is a map from object key to object size, plus the
same temp area as above.  The S3 client behaviours the code relies on
are: `upload` streams the source file under the computed key (it can
fail, modelled by `uploadFails`); `deleteObject` succeeds whether or
not the key exists (documented object-store semantics — deleting an
absent key is a success, not an error), unless the call itself fails
(`deleteFails`). -/

structure S3State where
  temp : List (String × Nat)
  objects : List (String × Nat)
deriving DecidableEq, Repr

/-- `S3Storage.saveRecording(tempFilePath, streamKey, metadata)`.
`keyBase` is `this.recordingsPrefix`.  Mirrors the source: `pathExists`
check (throwing into catch when absent), `fs.stat` the temp file,
stream it to `` `${recordingsPrefix}${streamKey}/${fileName}` ``,
delete the temp file only after the upload is acknowledged, then build
the result metadata with the same `...metadata` spread as the local
backend. -/
def s3SaveRecording (st : S3State) (tempFilePath streamKey : String)
    (metadata : MetaPatch) (tsStr : String) (now : Nat) (keyBase : String)
    (uploadFails : Bool) : StorageResult × S3State :=
  match alookup tempFilePath st.temp with
  | none =>
    ({ success := false,
       metadata := { streamKey := streamKey, fileName := "", fileSize := 0,
                     uploadTime := now },
       error := some ("Temp file not found: " ++ tempFilePath) }, st)
  | some size =>
    if uploadFails then
      ({ success := false,
         metadata := { streamKey := streamKey, fileName := "", fileSize := 0,
                       uploadTime := now },
         error := some "upload failed" }, st)
    else
      let fileName := recordingFileName streamKey tsStr
      let s3Key := keyBase ++ streamKey ++ "/" ++ fileName
      let st1 : S3State :=
        { temp := aerase tempFilePath st.temp,
          objects := aset s3Key size st.objects }
      ({ success := true,
         filePath := some s3Key,
         url := some ("https://cdn.example/" ++ s3Key),
         metadata := { streamKey := streamKey, fileName := fileName,
                       fileSize := metadata.fileSize.getD size,
                       uploadTime := now,
                       duration := metadata.duration,
                       quality := metadata.quality } }, st1)

/-- `S3Storage.deleteRecording(s3Key)`: calls `deleteObject` and
returns `true` unless the call rejects (caught, returning `false`).
The object-store delete succeeds regardless of whether the key exists,
so an absent key still yields `true`. -/
def s3DeleteRecording (st : S3State) (s3Key : String) (deleteFails : Bool) :
    Bool × S3State :=
  if deleteFails then
    (false, st)
  else
    (true, { st with objects := aerase s3Key st.objects })

/-- Outcome of constructing `S3Storage`.  `constructed` records whether
the constructor returned an instance to its caller; `pendingCheck` is
the eventual outcome of the `verifyConnection()` promise the
constructor fires without `await` (its rejection surfaces as an
unhandled promise rejection, never as a constructor throw). -/
structure S3Construction where
  constructed : Bool
  pendingCheck : Except String Unit
deriving Repr

/-- `new S3Storage()`: assigns the client and configuration fields and
invokes `this.verifyConnection()` with no `await`; the constructor is
synchronous, so it returns the instance regardless of whether the
`headBucket` existence check succeeds.  `headBucketOk` is the outcome
of `s3.headBucket({Bucket: this.bucketName})`. -/
def s3Constructor (headBucketOk : Bool) : S3Construction :=
  { constructed := true,
    pendingCheck :=
      if headBucketOk then Except.ok () else Except.error "S3 connection failed" }

/-! ### Session registry (src/index.ts, `RTMPServer`)

`sessionMap : Map<string, string>` maps a stream key to the transport
session id.  `prePublish` derives the stream key as the final segment
of the stream path (`StreamPath.split("/").pop()`), rejects the
session when it is falsy, and otherwise `sessionMap.set`s it;
`donePublish` derives the key the same way and `sessionMap.delete`s
it (absent keys are not an error). -/

abbrev SessionMap := List (String × String)

/-- Character-level splitter behind `splitSegs`: splits at every `/`,
keeping empty segments, exactly as JavaScript `String.split("/")`. -/
def splitSegsAux (cur : List Char) : List Char → List (List Char)
  | [] => [cur.reverse]
  | c :: rest =>
    if c = '/' then cur.reverse :: splitSegsAux [] rest
    else splitSegsAux (c :: cur) rest

/-- JavaScript `s.split("/")`. -/
def splitSegs (s : String) : List String :=
  (splitSegsAux [] s.data).map (fun l => String.mk l)

/-- `StreamPath.split("/").pop()` — the final path segment (`pop` of a
nonempty array; `split` always returns at least one element). -/
def lastSegment (p : String) : Option String :=
  (splitSegs p).getLast?

/-- The `prePublish` handler: returns the new map and whether the
session was admitted (`false` = `session.reject()`). -/
def prePublish (m : SessionMap) (id streamPath : String) : SessionMap × Bool :=
  match lastSegment streamPath with
  | none => (m, false)
  | some streamKey =>
    if streamKey = "" then (m, false)
    else (aset streamKey id m, true)

/-- The `donePublish` handler: `sessionMap.delete(streamKey)`. -/
def donePublish (m : SessionMap) (streamPath : String) : SessionMap :=
  match lastSegment streamPath with
  | none => m
  | some streamKey => aerase streamKey m

/-! ### Egress orchestrator (loadtest/viewer_real.js)

The webhook handler body, after `receiver.receive` has verified the
signature.  The handler is modelled as a transition from
(`activeEgressMap`, event) to (new map, list of external calls issued,
HTTP response), parametrised by the environment answering the
participant queries and the egress start/stop calls. -/

/-- LiveKit track types: `0 = AUDIO`, `1 = VIDEO`, anything else is
ignored by the handler. -/
inductive TrackType
  | audio
  | video
  | other
deriving DecidableEq, Repr

structure TrackInfo where
  type : TrackType
  sid : Option String
deriving DecidableEq, Repr

structure Participant where
  identity : String
  tracks : List TrackInfo
deriving DecidableEq, Repr

inductive ExtCall
  | listParticipants (room : String)
  | startEgress (room audioTrackId videoTrackId : String)
  | stopEgress (egressId : String)
deriving DecidableEq, Repr

inductive WebhookResp
  | ok
  | clientError (msg : String)
deriving DecidableEq, Repr

/-- Environment of external services: the result of the first
`listParticipants` query, the result of the retry query, and the
outcomes of `startTrackCompositeEgress` / `stopEgress`. -/
structure OrchEnv where
  list1 : String → List Participant
  list2 : String → List Participant
  startResult : String → String → String → Except String String
  stopResult : String → Except String Unit

abbrev EgressMap := List (String × String)

/-- JavaScript truthiness test on `track.sid` / `audioTrack?.sid`:
`!x` holds for `undefined` and for the empty string. -/
def strFalsy : Option String → Bool
  | none => true
  | some s => s.isEmpty

/-- `pub.tracks.find((t) => t.type === 0)?.sid`. -/
def audioSidOf (pub : Participant) : Option String :=
  (pub.tracks.find? (fun t => t.type = TrackType.audio)).bind (fun t => t.sid)

/-- The participant list the handler ends up with: the first query's
result, or — only when that is empty — the result of the single retry
after the bounded delay. -/
def participantsAfterRetry (env : OrchEnv) (roomName : String) : List Participant :=
  if (env.list1 roomName).isEmpty then env.list2 roomName else env.list1 roomName

/-- The `listParticipants` calls the handler issues: one, plus one
retry iff the first result was empty. -/
def queryCalls (env : OrchEnv) (roomName : String) : List ExtCall :=
  if (env.list1 roomName).isEmpty then
    [ExtCall.listParticipants roomName, ExtCall.listParticipants roomName]
  else
    [ExtCall.listParticipants roomName]

/-- The `track_published` branch of the webhook handler.  Mirrors the
source: bail out (with `{ok:true}`) on missing room/track, on audio or
non-video tracks, and on a room already in `activeEgressMap`; wait the
initial sync delay, query participants, retry exactly once iff the
list came back empty; abandon when still empty, or when the first
participant's audio sid or the event's video sid is falsy; otherwise
issue one `startTrackCompositeEgress` and, when it returns an egress
id, record it in the map (a start failure is caught and leaves the map
unchanged).  The response is `{ok:true}` on every path. -/
def handleTrackPublished (env : OrchEnv) (st : EgressMap)
    (room : Option String) (track : Option TrackInfo) :
    EgressMap × List ExtCall × WebhookResp :=
  match room, track with
  | some roomName, some tr =>
    match tr.type with
    | TrackType.audio => (st, [], WebhookResp.ok)
    | TrackType.other => (st, [], WebhookResp.ok)
    | TrackType.video =>
      let videoTrackId := tr.sid
      if (alookup roomName st).isSome then (st, [], WebhookResp.ok)
      else
        let participants := participantsAfterRetry env roomName
        let calls := queryCalls env roomName
        match participants with
        | [] => (st, calls, WebhookResp.ok)
        | pub :: _ =>
          let audioTrackId := audioSidOf pub
          if strFalsy videoTrackId || strFalsy audioTrackId then
            (st, calls, WebhookResp.ok)
          else
            let a := audioTrackId.getD ""
            let v := videoTrackId.getD ""
            match env.startResult roomName a v with
            | Except.ok egressId =>
              (aset roomName egressId st,
               calls ++ [ExtCall.startEgress roomName a v], WebhookResp.ok)
            | Except.error _ =>
              (st, calls ++ [ExtCall.startEgress roomName a v], WebhookResp.ok)
  | _, _ => (st, [], WebhookResp.ok)

/-- The `ingress_ended` branch of the webhook handler.  `roomName` is
`event.ingressInfo?.roomName || event.ingressInfo?.name`, already
resolved.  With no active egress for the room it is a no-op; with one,
`stopEgress` is awaited inside a try/catch whose outcome is discarded,
and the mapping is removed unconditionally afterwards. -/
def handleIngressEnded (env : OrchEnv) (st : EgressMap)
    (roomName : Option String) : EgressMap × List ExtCall × WebhookResp :=
  match roomName with
  | none => (st, [], WebhookResp.ok)
  | some r =>
    match alookup r st with
    | none => (st, [], WebhookResp.ok)
    | some egressId =>
      let _ := env.stopResult egressId
      (aerase r st, [ExtCall.stopEgress egressId], WebhookResp.ok)

/-- Number of `startTrackCompositeEgress` calls in a call list. -/
def countStarts (calls : List ExtCall) : Nat :=
  calls.countP (fun c =>
    match c with
    | ExtCall.startEgress _ _ _ => true
    | _ => false)

/-- Number of `listParticipants` calls in a call list. -/
def countQueries (calls : List ExtCall) : Nat :=
  calls.countP (fun c =>
    match c with
    | ExtCall.listParticipants _ => true
    | _ => false)

/-- `p.2.birthtime < cutoff`: the entry is older than the cleanup cutoff. -/
def isOldEntry (cutoff : Nat) (p : String × LocalEntry) : Bool :=
  p.2.birthtime < cutoff

/-! ### Concrete fixtures used by witnesses and counterexamples -/

/-- A publisher exposing both an audio and a video track. -/
def pubOk : Participant :=
  { identity := "p",
    tracks := [{ type := TrackType.audio, sid := some "a1" },
               { type := TrackType.video, sid := some "v1" }] }

/-- A publisher whose audio track has not propagated yet. -/
def pubNoAudio : Participant :=
  { identity := "p", tracks := [{ type := TrackType.video, sid := some "v1" }] }

/-- A video `track_published` payload with sid `v1`. -/
def trV : TrackInfo := { type := TrackType.video, sid := some "v1" }

/-- Environment where the first participant query already resolves the
publisher and the egress start succeeds. -/
def envOk : OrchEnv :=
  { list1 := fun _ => [pubOk], list2 := fun _ => [],
    startResult := fun _ _ _ => Except.ok "eg1",
    stopResult := fun _ => Except.ok () }

/-- Environment whose first query returns the publisher without its
audio track, while the retry query would return it complete. -/
def envRetry : OrchEnv :=
  { list1 := fun _ => [pubNoAudio], list2 := fun _ => [pubOk],
    startResult := fun _ _ _ => Except.ok "eg1",
    stopResult := fun _ => Except.ok () }

/-- Environment where `stopEgress` rejects. -/
def envStopFail : OrchEnv :=
  { list1 := fun _ => [], list2 := fun _ => [],
    startResult := fun _ _ _ => Except.error "start failed",
    stopResult := fun _ => Except.error "stop failed" }

/-- A recordings directory holding the `thumbnails` subdirectory the
backend itself created, a stray non-recording file, and a fresh
recording; the first two are older than a 168-hour cutoff taken at
time 2000000000000. -/
def fsThumbs : LocalFS :=
  { temp := [],
    recordings :=
      [("thumbnails", { size := 0, birthtime := 1999000000000, isDir := true }),
       ("notes.txt", { size := 7, birthtime := 1999100000000 }),
       ("keep.flv", { size := 9, birthtime := 2000000000000 })] }

/-- Two recordings both 10 days old at time 2000000000000. -/
def fsTwoOld : LocalFS :=
  { temp := [],
    recordings :=
      [("a.flv", { size := 10, birthtime := 1999136000000 }),
       ("b.flv", { size := 20, birthtime := 1999136000000 })] }

/-! ### Helper lemmas about the association-list maps -/

theorem alookup_aset_self {α : Type} (k : String) (v : α) (l : List (String × α)) :
    alookup k (aset k v l) = some v := by
  simp [aset, alookup]

theorem alookup_aerase {α : Type} (k : String) (l : List (String × α)) :
    alookup k (aerase k l) = none := by
  induction l with
  | nil => simp [aerase, alookup]
  | cons p rest ih =>
    by_cases h : p.1 = k
    · simp [aerase, h, ih]
    · simp [aerase, alookup, h, ih]

theorem aerase_idem {α : Type} (k : String) (l : List (String × α)) :
    aerase k (aerase k l) = aerase k l := by
  induction l with
  | nil => simp [aerase]
  | cons p rest ih =>
    by_cases h : p.1 = k
    · simp [aerase, h, ih]
    · simp [aerase, h, ih]

/-! ### Helper lemmas about the cleanup sweep -/

theorem cleanupGo_noFail (cutoff : Nat) (l : List (String × LocalEntry)) (acc : Nat) :
    cleanupGo (fun _ => false) cutoff l acc =
      (acc + l.countP (isOldEntry cutoff), l.filter (fun p => ! isOldEntry cutoff p)) := by
  induction l generalizing acc with
  | nil => simp [cleanupGo]
  | cons p rest ih =>
    obtain ⟨name, e⟩ := p
    by_cases h : e.birthtime < cutoff
    · simp only [cleanupGo, if_pos h, Bool.false_eq_true, ih]
      simp [isOldEntry, h, List.countP_cons]
      omega
    · simp only [cleanupGo, if_neg h, ih]
      simp [isOldEntry, h, List.countP_cons]

theorem cleanupGo_aborts (removeFails : String → Bool) (cutoff : Nat)
    (l : List (String × LocalEntry)) (acc : Nat)
    (h : ∃ p ∈ l, p.2.birthtime < cutoff ∧ removeFails p.1 = true) :
    (cleanupGo removeFails cutoff l acc).1 = 0 := by
  induction l generalizing acc with
  | nil => simp at h
  | cons p rest ih =>
    obtain ⟨name, e⟩ := p
    by_cases hold : e.birthtime < cutoff
    · by_cases hfail : removeFails name = true
      · simp [cleanupGo, hold, hfail]
      · have hrest : ∃ q ∈ rest, q.2.birthtime < cutoff ∧ removeFails q.1 = true := by
          rcases h with ⟨q, hq, hq2⟩
          rcases List.mem_cons.mp hq with rfl | hq'
          · exact absurd hq2.2 hfail
          · exact ⟨q, hq', hq2⟩
        simp only [cleanupGo, if_pos hold]
        rw [if_neg (by simpa using hfail)]
        exact ih _ hrest
    · have hrest : ∃ q ∈ rest, q.2.birthtime < cutoff ∧ removeFails q.1 = true := by
        rcases h with ⟨q, hq, hq2⟩
        rcases List.mem_cons.mp hq with rfl | hq'
        · exact absurd hq2.1 hold
        · exact ⟨q, hq', hq2⟩
      simp only [cleanupGo, if_neg hold]
      exact ih _ hrest

/-! ### Claim C3 — save success postcondition -/

/-- C3 (counterexample): a save call that returns `success:true` can
report a `metadata.fileSize` different from the persisted destination
object's size: the `...metadata` spread in `saveRecording` lets a
caller-supplied `fileSize` (here 999) override the `fs.stat` size
(here 5) of the destination file. -/
theorem save_metadata_override_counterexample :
    (localSaveRecording { temp := [("t", 5)], recordings := [] } "t" "sk"
        { fileSize := some 999 } "TS" 100 "8002").1.success = true ∧
    alookup "sk_TS.flv"
        (localSaveRecording { temp := [("t", 5)], recordings := [] } "t" "sk"
          { fileSize := some 999 } "TS" 100 "8002").2.recordings
      = some { size := 5, birthtime := 100 } ∧
    (localSaveRecording { temp := [("t", 5)], recordings := [] } "t" "sk"
        { fileSize := some 999 } "TS" 100 "8002").1.metadata.fileSize = 999 ∧
    ¬ (localSaveRecording { temp := [("t", 5)], recordings := [] } "t" "sk"
        { fileSize := some 999 } "TS" 100 "8002").1.metadata.fileSize = 5 := by
  refine ⟨rfl, by decide, rfl, by decide⟩

/-- C3 (amended): for every save call that returns `success:true` on
either backend and whose caller-supplied metadata patch does not carry
a `fileSize` of its own, the source temp file no longer exists
afterwards and `metadata.fileSize` equals the size of the persisted
destination object. -/
theorem save_success_postcondition
    (fs : LocalFS) (st : S3State) (tempFilePath streamKey tsStr : String)
    (now : Nat) (httpPort keyBase : String) (patch : MetaPatch) (sizeL sizeS : Nat)
    (hpatch : patch.fileSize = none)
    (hL : alookup tempFilePath fs.temp = some sizeL)
    (hS : alookup tempFilePath st.temp = some sizeS) :
    ((localSaveRecording fs tempFilePath streamKey patch tsStr now httpPort).1.success
        = true ∧
     alookup tempFilePath
        (localSaveRecording fs tempFilePath streamKey patch tsStr now httpPort).2.temp
        = none ∧
     alookup (recordingFileName streamKey tsStr)
        (localSaveRecording fs tempFilePath streamKey patch tsStr now httpPort).2.recordings
        = some { size := sizeL, birthtime := now } ∧
     (localSaveRecording fs tempFilePath streamKey patch tsStr now httpPort).1.metadata.fileSize
        = sizeL) ∧
    ((s3SaveRecording st tempFilePath streamKey patch tsStr now keyBase false).1.success
        = true ∧
     alookup tempFilePath
        (s3SaveRecording st tempFilePath streamKey patch tsStr now keyBase false).2.temp
        = none ∧
     alookup (keyBase ++ streamKey ++ "/" ++ recordingFileName streamKey tsStr)
        (s3SaveRecording st tempFilePath streamKey patch tsStr now keyBase false).2.objects
        = some sizeS ∧
     (s3SaveRecording st tempFilePath streamKey patch tsStr now keyBase false).1.metadata.fileSize
        = sizeS) := by
  constructor
  · simp [localSaveRecording, hL, hpatch, alookup_aerase, alookup_aset_self]
  · simp [s3SaveRecording, hS, hpatch, alookup_aerase, alookup_aset_self]

/-- C3 witness: a 5-byte temp file saved with an empty metadata patch
on both backends. -/
theorem save_success_postcondition_witness :
    alookup "t" ([("t", 5)] : List (String × Nat)) = some 5 ∧
    ((localSaveRecording { temp := [("t", 5)], recordings := [] } "t" "sk" {} "TS" 100
        "8002").1.metadata.fileSize = 5 ∧
     alookup "t"
        (localSaveRecording { temp := [("t", 5)], recordings := [] } "t" "sk" {} "TS" 100
          "8002").2.temp = none) ∧
    ((s3SaveRecording { temp := [("t", 5)], objects := [] } "t" "sk" {} "TS" 100
        "recordings/" false).1.metadata.fileSize = 5 ∧
     alookup "t"
        (s3SaveRecording { temp := [("t", 5)], objects := [] } "t" "sk" {} "TS" 100
          "recordings/" false).2.temp = none) := by
  have h := save_success_postcondition { temp := [("t", 5)], recordings := [] }
    { temp := [("t", 5)], objects := [] } "t" "sk" "TS" 100 "8002" "recordings/"
    {} 5 5 rfl (by decide) (by decide)
  exact ⟨by decide, ⟨h.1.2.2.2, h.1.2.1⟩, ⟨h.2.2.2.2, h.2.2.1⟩⟩

/-! ### Claim C4 — save on a missing temp path -/

/-- C4: on either backend, a save call whose `tempFilePath` does not
exist does not throw: it returns `success:false`, its `error` mentions
the missing temp path, and the backend state is unchanged (no
destination object is created). -/
theorem save_missing_temp_spec
    (fs : LocalFS) (st : S3State) (tempFilePath streamKey tsStr : String)
    (now : Nat) (httpPort keyBase : String) (patch : MetaPatch)
    (uploadFails : Bool)
    (hL : alookup tempFilePath fs.temp = none)
    (hS : alookup tempFilePath st.temp = none) :
    ((localSaveRecording fs tempFilePath streamKey patch tsStr now httpPort).1.success
        = false ∧
     (localSaveRecording fs tempFilePath streamKey patch tsStr now httpPort).1.error
        = some ("Temp file not found: " ++ tempFilePath) ∧
     (localSaveRecording fs tempFilePath streamKey patch tsStr now httpPort).2 = fs) ∧
    ((s3SaveRecording st tempFilePath streamKey patch tsStr now keyBase
        uploadFails).1.success = false ∧
     (s3SaveRecording st tempFilePath streamKey patch tsStr now keyBase
        uploadFails).1.error = some ("Temp file not found: " ++ tempFilePath) ∧
     (s3SaveRecording st tempFilePath streamKey patch tsStr now keyBase
        uploadFails).2 = st) := by
  constructor
  · simp [localSaveRecording, hL]
  · simp [s3SaveRecording, hS]

/-- C4 witness: saving from the nonexistent temp path `missing` on
both backends over empty states. -/
theorem save_missing_temp_spec_witness :
    ((localSaveRecording { temp := [], recordings := [] } "missing" "sk" {} "TS" 100
        "8002").1.success = false ∧
     (localSaveRecording { temp := [], recordings := [] } "missing" "sk" {} "TS" 100
        "8002").1.error = some ("Temp file not found: " ++ "missing") ∧
     (localSaveRecording { temp := [], recordings := [] } "missing" "sk" {} "TS" 100
        "8002").2 = { temp := [], recordings := [] }) ∧
    ((s3SaveRecording { temp := [], objects := [] } "missing" "sk" {} "TS" 100
        "recordings/" false).1.success = false ∧
     (s3SaveRecording { temp := [], objects := [] } "missing" "sk" {} "TS" 100
        "recordings/" false).1.error = some ("Temp file not found: " ++ "missing") ∧
     (s3SaveRecording { temp := [], objects := [] } "missing" "sk" {} "TS" 100
        "recordings/" false).2 = { temp := [], objects := [] }) := by
  exact save_missing_temp_spec { temp := [], recordings := [] }
    { temp := [], objects := [] } "missing" "sk" "TS" 100 "8002" "recordings/"
    {} false rfl rfl

/-! ### Claim C5 — remote backend construction -/

/-- C5 (divergence witness): constructing the remote backend while the
bucket existence check fails still returns an instance.  The
constructor invokes the asynchronous `verifyConnection()` without
`await`, so the `Error` it throws becomes an unhandled promise
rejection and never propagates to the construction site: construction
does not fail fast. -/
theorem s3_constructor_no_throw :
    s3Constructor false =
      { constructed := true, pendingCheck := Except.error "S3 connection failed" } ∧
    (s3Constructor false).constructed = true :=
  ⟨rfl, rfl⟩

/-! ### Claim C6 — delete idempotency -/

/-- C6 (counterexample): deleting an absent object on the remote
backend returns `true`, not `false`: `deleteObject` succeeds whether
or not the key exists, and the catch branch (the only `false` path) is
never reached.  Here the object store is empty, yet delete reports
`true`. -/
theorem s3_delete_absent_counterexample :
    alookup "k" ({ temp := [], objects := [] } : S3State).objects = none ∧
    (s3DeleteRecording { temp := [], objects := [] } "k" false).1 = true ∧
    ¬ (s3DeleteRecording { temp := [], objects := [] } "k" false).1 = false := by
  refine ⟨rfl, rfl, by decide⟩

/-- C6 (amended): deletion never raises and is idempotent on both
backends, but the value reported for an absent object differs: the
local backend returns `false` (so a second delete returns `false`),
while the remote backend's delete succeeds regardless of the key's
existence and returns `true` (its `false` path is only the failure of
the delete call itself). -/
theorem delete_idempotency_spec (fs : LocalFS) (st : S3State) (name s3Key : String) :
    ((alookup name fs.recordings = none → localDeleteRecording fs name = (false, fs)) ∧
     (localDeleteRecording (localDeleteRecording fs name).2 name).1 = false) ∧
    ((s3DeleteRecording st s3Key false).1 = true ∧
     alookup s3Key (s3DeleteRecording st s3Key false).2.objects = none ∧
     (s3DeleteRecording (s3DeleteRecording st s3Key false).2 s3Key false).1 = true) := by
  refine ⟨⟨fun h => ?_, ?_⟩, rfl, ?_, rfl⟩
  · simp [localDeleteRecording, h]
  · by_cases h : (alookup name fs.recordings).isSome
    · simp [localDeleteRecording, h, alookup_aerase]
    · simp [localDeleteRecording, h]
  · simp [s3DeleteRecording, alookup_aerase]

/-- C6 witness: one recording `a.flv` on the local backend, one object
`k` on the remote backend. -/
theorem delete_idempotency_spec_witness :
    (localDeleteRecording { temp := [], recordings := [] } "a.flv"
       = (false, { temp := [], recordings := [] }) ∧
     (localDeleteRecording
        (localDeleteRecording
          { temp := [], recordings := [("a.flv", { size := 1, birthtime := 0 })] }
          "a.flv").2 "a.flv").1 = false) ∧
    ((s3DeleteRecording { temp := [], objects := [("k", 1)] } "k" false).1 = true ∧
     (s3DeleteRecording
        (s3DeleteRecording { temp := [], objects := [("k", 1)] } "k" false).2
        "k" false).1 = true) := by
  refine ⟨⟨?_, ?_⟩, ?_, ?_⟩
  · exact (delete_idempotency_spec { temp := [], recordings := [] }
      { temp := [], objects := [] } "a.flv" "k").1.1 rfl
  · exact (delete_idempotency_spec
      { temp := [], recordings := [("a.flv", { size := 1, birthtime := 0 })] }
      { temp := [], objects := [] } "a.flv" "k").1.2
  · exact (delete_idempotency_spec { temp := [], recordings := [] }
      { temp := [], objects := [("k", 1)] } "a.flv" "k").2.1
  · exact (delete_idempotency_spec { temp := [], recordings := [] }
      { temp := [], objects := [("k", 1)] } "a.flv" "k").2.2.2

/-! ### Claim C8 — cleanup sweep -/

/-- C8 (counterexample): a failure deleting one individual file aborts
the sweep of the remaining files.  Over two files both older than the
168-hour cutoff, with removal of the first (`a.flv`) failing, the catch
wrapping the whole loop returns 0 and the equally old `b.flv` is never
deleted — the claim predicts `b.flv` would still be swept. -/
theorem cleanup_abort_counterexample :
    (cleanupOldRecordings (fun n => n == "a.flv") 2000000000000 168 fsTwoOld).1 = 0 ∧
    ¬ alookup "b.flv"
        (cleanupOldRecordings (fun n => n == "a.flv") 2000000000000 168
          fsTwoOld).2.recordings = none := by
  refine ⟨by decide, by decide⟩

/-- C8 (amended): when no individual deletion fails,
`cleanupOldRecordings(maxAgeHours)` deletes exactly the entries whose
creation time is older than `now − maxAgeHours` and returns their
count; but a failure deleting one file aborts the sweep — the
surrounding catch returns 0 and entries not yet visited are kept. -/
theorem cleanup_sweep_spec (removeFails : String → Bool) (now maxAgeHours : Nat)
    (fs : LocalFS) :
    (removeFails = (fun _ => false) →
       cleanupOldRecordings removeFails now maxAgeHours fs =
         (fs.recordings.countP (isOldEntry (now - maxAgeHours * 60 * 60 * 1000)),
          { fs with recordings := fs.recordings.filter (fun p => ! isOldEntry (now - maxAgeHours * 60 * 60 * 1000) p) })) ∧
    ((∃ p ∈ fs.recordings,
        p.2.birthtime < now - maxAgeHours * 60 * 60 * 1000 ∧ removeFails p.1 = true) →
       (cleanupOldRecordings removeFails now maxAgeHours fs).1 = 0) := by
  constructor
  · intro h
    subst h
    simp [cleanupOldRecordings, cleanupGo_noFail]
  · intro h
    simpa [cleanupOldRecordings] using
      cleanupGo_aborts removeFails (now - maxAgeHours * 60 * 60 * 1000)
        fs.recordings 0 h

/-- C8 witness: the spec's own example — one file created 10 days ago,
one created now, `cleanupOldRecordings(168)` with no failures deletes
exactly the older file and returns 1; and the abort branch at the
two-old-files state with `a.flv` failing returns 0. -/
theorem cleanup_sweep_spec_witness :
    cleanupOldRecordings (fun _ => false) 2000000000000 168
        { temp := [],
          recordings := [("old.flv", { size := 10, birthtime := 1999136000000 }),
                         ("new.flv", { size := 20, birthtime := 2000000000000 })] }
      = (1, { temp := [],
              recordings := [("new.flv", { size := 20, birthtime := 2000000000000 })] }) ∧
    (cleanupOldRecordings (fun n => n == "b.flv") 2000000000000 168 fsTwoOld).1 = 0 := by
  constructor
  · have h := (cleanup_sweep_spec (fun _ => false) 2000000000000 168
      { temp := [],
        recordings := [("old.flv", { size := 10, birthtime := 1999136000000 }),
                       ("new.flv", { size := 20, birthtime := 2000000000000 })] }).1 rfl
    rw [h]
    decide
  · exact (cleanup_sweep_spec (fun n => n == "b.flv") 2000000000000 168 fsTwoOld).2
      ⟨("b.flv", { size := 20, birthtime := 1999136000000 }), by simp [fsTwoOld],
        by decide, by decide⟩

/-! ### Claim C10 — cleanup examines every directory entry -/

/-- C10: the local backend's cleanup examines every entry of the
recordings directory regardless of extension: any entry older than the
cutoff — whatever its name, including non-recording files and the
`thumbnails` subdirectory the backend creates — is removed, and the
returned total counts all old entries. -/
theorem cleanup_all_entries_spec (now maxAgeHours : Nat) (fs : LocalFS)
    (name : String) (e : LocalEntry)
    (_hmem : (name, e) ∈ fs.recordings)
    (hold : e.birthtime < now - maxAgeHours * 60 * 60 * 1000) :
    ¬ (name, e) ∈
        (cleanupOldRecordings (fun _ => false) now maxAgeHours fs).2.recordings ∧
    (cleanupOldRecordings (fun _ => false) now maxAgeHours fs).1
      = fs.recordings.countP (isOldEntry (now - maxAgeHours * 60 * 60 * 1000)) := by
  have h := cleanupGo_noFail (now - maxAgeHours * 60 * 60 * 1000) fs.recordings 0
  constructor
  · intro hmem2
    simp only [cleanupOldRecordings, h] at hmem2
    have := (List.mem_filter.mp hmem2).2
    simp [isOldEntry, hold] at this
  · simp [cleanupOldRecordings, h]

/-- C10 witness: over a directory holding the old `thumbnails`
subdirectory, an old `notes.txt` and a fresh `keep.flv`, both old
non-`.flv` entries are removed and the call returns 2. -/
theorem cleanup_all_entries_spec_witness :
    ¬ ("thumbnails", { size := 0, birthtime := 1999000000000, isDir := true }) ∈
        (cleanupOldRecordings (fun _ => false) 2000000000000 168 fsThumbs).2.recordings ∧
    ¬ ("notes.txt", { size := 7, birthtime := 1999100000000 }) ∈
        (cleanupOldRecordings (fun _ => false) 2000000000000 168 fsThumbs).2.recordings ∧
    (cleanupOldRecordings (fun _ => false) 2000000000000 168 fsThumbs).1 = 2 := by
  have h1 := cleanup_all_entries_spec 2000000000000 168 fsThumbs "thumbnails"
    { size := 0, birthtime := 1999000000000, isDir := true } (by simp [fsThumbs])
    (by decide)
  have h2 := cleanup_all_entries_spec 2000000000000 168 fsThumbs "notes.txt"
    { size := 7, birthtime := 1999100000000 } (by simp [fsThumbs]) (by decide)
  refine ⟨h1.1, h2.1, ?_⟩
  rw [h1.2]
  decide

/-! ### Claim C9 — session registry round trip -/

/-- C9: for every valid (non-empty) stream key, admitting a publish
(`register`) and then handling the matching `donePublish`
(`unregister`) leaves the session registry with no entry for that key,
and a second `unregister` of the same key is a no-op rather than an
error. -/
theorem register_unregister_spec (m : SessionMap) (id streamPath streamKey : String)
    (hseg : lastSegment streamPath = some streamKey)
    (hne : ¬ streamKey = "") :
    (prePublish m id streamPath).2 = true ∧
    alookup streamKey (prePublish m id streamPath).1 = some id ∧
    alookup streamKey (donePublish (prePublish m id streamPath).1 streamPath) = none ∧
    donePublish (donePublish (prePublish m id streamPath).1 streamPath) streamPath
      = donePublish (prePublish m id streamPath).1 streamPath := by
  simp [prePublish, donePublish, hseg, hne, alookup_aset_self, alookup_aerase,
    aerase_idem]

/-- C9 witness: stream path `live/abc` (key `abc`) registered with
session id `s1` into the empty registry. -/
theorem register_unregister_spec_witness :
    (prePublish [] "s1" "live/abc").2 = true ∧
    alookup "abc" (prePublish [] "s1" "live/abc").1 = some "s1" ∧
    alookup "abc" (donePublish (prePublish [] "s1" "live/abc").1 "live/abc") = none ∧
    donePublish (donePublish (prePublish [] "s1" "live/abc").1 "live/abc") "live/abc"
      = donePublish (prePublish [] "s1" "live/abc").1 "live/abc" :=
  register_unregister_spec [] "s1" "live/abc" "abc" (by decide) (by decide)

/-! ### Helper lemmas about the webhook call lists -/

theorem countStarts_queryCalls (env : OrchEnv) (R : String) :
    countStarts (queryCalls env R) = 0 := by
  by_cases h : (env.list1 R).isEmpty <;> simp [countStarts, queryCalls, h]

theorem countStarts_append (l1 l2 : List ExtCall) :
    countStarts (l1 ++ l2) = countStarts l1 + countStarts l2 :=
  List.countP_append _ _ _

/-! ### Claim C1 — at most one live egress mapping per room -/

/-- C1: a video `track_published` event for a room with no live
mapping, a resolvable publisher exposing both audio and video track
ids, and a successful start, issues exactly one start call and sets
`EgressMapping[R]`; a further identical video event for the room
before `ingress_ended` issues zero additional start calls and leaves
the mapping unchanged — idempotency is enforced purely by presence in
the mapping. -/
theorem egress_start_idempotent (env : OrchEnv) (st : EgressMap)
    (R v a jid : String) (tr : TrackInfo) (pub : Participant)
    (rest : List Participant)
    (hnone : alookup R st = none)
    (htr : tr = { type := TrackType.video, sid := some v })
    (hv : ¬ v = "")
    (hres : participantsAfterRetry env R = pub :: rest)
    (ha : audioSidOf pub = some a)
    (hna : ¬ a = "")
    (hstart : env.startResult R a v = Except.ok jid) :
    countStarts (handleTrackPublished env st (some R) (some tr)).2.1 = 1 ∧
    alookup R (handleTrackPublished env st (some R) (some tr)).1 = some jid ∧
    (handleTrackPublished env st (some R) (some tr)).2.2 = WebhookResp.ok ∧
    (handleTrackPublished env (handleTrackPublished env st (some R) (some tr)).1
        (some R) (some tr)).1
      = (handleTrackPublished env st (some R) (some tr)).1 ∧
    countStarts (handleTrackPublished env
        (handleTrackPublished env st (some R) (some tr)).1 (some R) (some tr)).2.1
      = 0 ∧
    (handleTrackPublished env (handleTrackPublished env st (some R) (some tr)).1
        (some R) (some tr)).2.2 = WebhookResp.ok := by
  have hr1 : handleTrackPublished env st (some R) (some tr)
      = (aset R jid st, queryCalls env R ++ [ExtCall.startEgress R a v],
         WebhookResp.ok) := by
    subst htr
    simp [handleTrackPublished, hnone, hres, ha, hstart, strFalsy,
      String.isEmpty_iff, hv, hna]
  have hr2 : handleTrackPublished env (aset R jid st) (some R) (some tr)
      = (aset R jid st, [], WebhookResp.ok) := by
    subst htr
    simp [handleTrackPublished, alookup_aset_self]
  rw [hr1]
  refine ⟨?_, alookup_aset_self R jid st, rfl, ?_, ?_, ?_⟩
  · rw [countStarts_append, countStarts_queryCalls]
    rfl
  · rw [hr2]
  · rw [hr2]
    rfl
  · rw [hr2]

/-- C1 witness: room `R`, video sid `v1`, publisher `pubOk` resolved
by the first query, start returning egress id `eg1`, starting from the
empty mapping. -/
theorem egress_start_idempotent_witness :
    countStarts (handleTrackPublished envOk [] (some "R") (some trV)).2.1 = 1 ∧
    alookup "R" (handleTrackPublished envOk [] (some "R") (some trV)).1
      = some "eg1" ∧
    (handleTrackPublished envOk [] (some "R") (some trV)).2.2 = WebhookResp.ok ∧
    (handleTrackPublished envOk
        (handleTrackPublished envOk [] (some "R") (some trV)).1
        (some "R") (some trV)).1
      = (handleTrackPublished envOk [] (some "R") (some trV)).1 ∧
    countStarts (handleTrackPublished envOk
        (handleTrackPublished envOk [] (some "R") (some trV)).1
        (some "R") (some trV)).2.1 = 0 ∧
    (handleTrackPublished envOk
        (handleTrackPublished envOk [] (some "R") (some trV)).1
        (some "R") (some trV)).2.2 = WebhookResp.ok :=
  egress_start_idempotent envOk [] "R" "v1" "a1" "eg1" trV pubOk [] rfl rfl
    (by decide) (by decide) (by decide) (by decide) rfl

/-! ### Claim C2 — ingress ended stops and removes the mapping -/

/-- C2: an `ingress_ended` event for a room with a live mapping issues
exactly one stop call for the recorded job id and removes the mapping
unconditionally — the stop outcome (`env.stopResult`) is universally
quantified, so the result is the same when the stop call fails; an
`ingress_ended` event for a room with no mapping is a no-op. -/
theorem ingress_ended_stop_spec (env : OrchEnv) (st : EgressMap) (R : String) :
    (∀ jid, alookup R st = some jid →
       handleIngressEnded env st (some R)
         = (aerase R st, [ExtCall.stopEgress jid], WebhookResp.ok) ∧
       alookup R (aerase R st) = none) ∧
    (alookup R st = none →
       handleIngressEnded env st (some R) = (st, [], WebhookResp.ok)) := by
  constructor
  · intro jid h
    exact ⟨by simp [handleIngressEnded, h], alookup_aerase R st⟩
  · intro h
    simp [handleIngressEnded, h]

/-- C2 witness: room `R` mapped to job `eg1`, handled in the
environment whose `stopEgress` rejects; and the no-op on the empty
mapping. -/
theorem ingress_ended_stop_spec_witness :
    handleIngressEnded envStopFail [("R", "eg1")] (some "R")
      = (aerase "R" [("R", "eg1")], [ExtCall.stopEgress "eg1"], WebhookResp.ok) ∧
    aerase "R" [("R", "eg1")] = ([] : EgressMap) ∧
    handleIngressEnded envStopFail [] (some "R") = ([], [], WebhookResp.ok) :=
  ⟨((ingress_ended_stop_spec envStopFail [("R", "eg1")] "R").1 "eg1" (by decide)).1,
   by decide,
   (ingress_ended_stop_spec envStopFail [] "R").2 rfl⟩

/-! ### Claim C7 — bounded participant retry -/

/-- C7 (counterexample): the single retry covers only the
no-participant case.  When the first query returns a publisher whose
audio track id is still missing, the handler abandons immediately —
one participant query, not the two the claim requires — even though
the retry query (`envRetry.list2`) would have resolved both tracks and
led to a start. -/
theorem retry_missing_track_counterexample :
    handleTrackPublished envRetry [] (some "R") (some trV)
      = ([], [ExtCall.listParticipants "R"], WebhookResp.ok) ∧
    countQueries (handleTrackPublished envRetry [] (some "R") (some trV)).2.1 = 1 ∧
    ¬ countQueries (handleTrackPublished envRetry [] (some "R") (some trV)).2.1 = 2 ∧
    countStarts (handleTrackPublished envRetry [] (some "R") (some trV)).2.1 = 0 := by
  refine ⟨by decide, by decide, by decide, by decide⟩

/-- C7 (amended): if the participant query finds no participant, the
handler waits one bounded delay and retries exactly once more (two
queries in total); if still empty it abandons with no start call.  If
a participant is found but its audio track id is missing, it abandons
immediately with no further retry (one query in total) and no start
call.  In both cases the webhook sender receives a success
acknowledgment. -/
theorem retry_behavior_spec (env : OrchEnv) (st : EgressMap) (R v : String)
    (tr : TrackInfo) (pub : Participant) (rest : List Participant)
    (hnone : alookup R st = none)
    (htr : tr = { type := TrackType.video, sid := some v }) :
    (env.list1 R = [] ∧ env.list2 R = [] →
       handleTrackPublished env st (some R) (some tr)
         = (st, [ExtCall.listParticipants R, ExtCall.listParticipants R],
            WebhookResp.ok)) ∧
    (env.list1 R = pub :: rest → strFalsy (audioSidOf pub) = true →
       handleTrackPublished env st (some R) (some tr)
         = (st, [ExtCall.listParticipants R], WebhookResp.ok)) := by
  subst htr
  constructor
  · rintro ⟨h1, h2⟩
    simp [handleTrackPublished, hnone, participantsAfterRetry, queryCalls, h1, h2]
  · intro h1 h2
    simp [handleTrackPublished, hnone, participantsAfterRetry, queryCalls, h1, h2]

/-- C7 witness: the no-participant environment (two queries, then
abandon) and the missing-audio environment (one query, then abandon),
both from the empty mapping and acknowledged with `ok`. -/
theorem retry_behavior_spec_witness :
    handleTrackPublished envStopFail [] (some "R") (some trV)
      = ([], [ExtCall.listParticipants "R", ExtCall.listParticipants "R"],
         WebhookResp.ok) ∧
    handleTrackPublished envRetry [] (some "R") (some trV)
      = ([], [ExtCall.listParticipants "R"], WebhookResp.ok) :=
  ⟨(retry_behavior_spec envStopFail [] "R" "v1" trV pubNoAudio [] rfl rfl).1
      ⟨rfl, rfl⟩,
   (retry_behavior_spec envRetry [] "R" "v1" trV pubNoAudio [] rfl rfl).2 rfl
      (by decide)⟩

end RtmpVerify
